import Mathlib

/-!
Verification development for the football-intelligence acquisition pipeline.

Shallow embedding of the core components named in the specification:
the FBref match normalizer (`src/scrapers/fbref_scraper.py`), the
SofaScore multi-tier fetcher (`src/scripts/scrapers/sofascore_scraper.py`)
and the staleness-driven update scheduler (`src/db_update_scheduler.py`).
Dates are pre-formatted strings, timestamps and statistics are rationals
measured in hours, and Python exceptions are modelled with `Except`.
-/

namespace FootballIntel

/-! ## Preliminaries -/

/-- Decidable equality for `Except`, needed to evaluate embedded
Python computations that may raise. -/
instance {ε α : Type} [DecidableEq ε] [DecidableEq α] :
    DecidableEq (Except ε α)
  | Except.ok a, Except.ok b =>
      match decEq a b with
      | isTrue h => isTrue (by rw [h])
      | isFalse h => isFalse (fun hh => h (Except.ok.inj hh))
  | Except.ok _, Except.error _ => isFalse (fun hh => Except.noConfusion hh)
  | Except.error _, Except.ok _ => isFalse (fun hh => Except.noConfusion hh)
  | Except.error e, Except.error f =>
      match decEq e f with
      | isTrue h => isTrue (by rw [h])
      | isFalse h => isFalse (fun hh => h (Except.error.inj hh))

/-- Exact rational subtraction written through `Rat.divInt` so that it
evaluates by kernel reduction; `qSub_eq_sub` shows it is ordinary
subtraction of rationals. -/
def qSub (a b : ℚ) : ℚ :=
  Rat.divInt (a.num * b.den - b.num * a.den) (a.den * b.den)

/-- Exact rational division written through `Rat.divInt`; `qDiv_eq_div`
shows it is ordinary division of rationals. -/
def qDiv (a b : ℚ) : ℚ :=
  Rat.divInt (a.num * b.den) (a.den * b.num)

theorem qSub_eq_sub (a b : ℚ) : qSub a b = a - b := by
  conv_rhs => rw [← Rat.num_divInt_den a, ← Rat.num_divInt_den b]
  rw [Rat.divInt_sub_divInt _ _ (Int.natCast_ne_zero.mpr a.den_nz)
    (Int.natCast_ne_zero.mpr b.den_nz)]
  rfl

theorem qDiv_eq_div (a b : ℚ) : qDiv a b = a / b :=
  (Rat.div_def' a b).symm

/-- Insertion of an element into a sorted list, placing it before the
first element it compares `le` to.  Together with `stableSort` this
implements a stable ascending sort — the ordering contract of Python's
`list.sort(key=...)`. -/
def orderedInsert {α : Type} (le : α → α → Bool) (a : α) :
    List α → List α
  | [] => [a]
  | b :: l => if le a b then a :: b :: l else b :: orderedInsert le a l

/-- Stable ascending insertion sort (equal-key elements keep their
input order, as Python's sort guarantees). -/
def stableSort {α : Type} (le : α → α → Bool) : List α → List α
  | [] => []
  | a :: l => orderedInsert le a (stableSort le l)

theorem length_orderedInsert {α : Type} (le : α → α → Bool) (a : α)
    (l : List α) : (orderedInsert le a l).length = l.length + 1 := by
  induction l with
  | nil => rfl
  | cons b l ih =>
      simp only [orderedInsert]
      by_cases h : le a b
      · simp [h]
      · simp [h, ih]

theorem length_stableSort {α : Type} (le : α → α → Bool) (l : List α) :
    (stableSort le l).length = l.length := by
  induction l with
  | nil => rfl
  | cons a l ih =>
      simp only [stableSort, length_orderedInsert, ih, List.length_cons]

/-! ## FBref normalizer (`FBrefScraper.process_match_dataframe`) -/

/-- A raw per-team match row as scraped from FBref, after the column
renaming step of `process_match_dataframe`.  A statistic cell that is
absent or non-numeric is `none` (pandas NaN after `to_numeric(errors=
"coerce")`).  The `date` field is already formatted `YYYYMMDD`. -/
structure FbrefRawRow where
  date : String
  team : String
  opponent : String
  competition : String
  venue : String
  result : String
  gf : Option ℚ
  ga : Option ℚ
  xg : Option ℚ
  xga : Option ℚ
  sh : Option ℚ
  sot : Option ℚ
  corners : Option ℚ
  possession : Option ℚ
  deriving Repr, DecidableEq

/-- The normalized record produced by `process_match_dataframe` for one
row.  The numeric statistic columns have been passed through
`fillna(0)`, so they are plain rationals; `possession` is handled by a
separate branch without `fillna` and stays optional. -/
structure FbrefRecord where
  match_id : String
  date : String
  team : String
  opponent : String
  competition : String
  venue : String
  result : String
  gf : ℚ
  ga : ℚ
  xg : ℚ
  xga : ℚ
  sh : ℚ
  sot : ℚ
  corners : ℚ
  possession : Option ℚ
  source : String
  deriving Repr, DecidableEq

/-- `pd.to_numeric(col, errors="coerce").fillna(0)`: a missing (NaN)
statistic becomes the hard numeric `0`. -/
def fillna0 (v : Option ℚ) : ℚ :=
  v.getD 0

/-- The `match_id` column built by `process_match_dataframe`:
`f"{row['date'].strftime('%Y%m%d')}_{row['team']}_{row['opponent']}"`.
It concatenates date, team and opponent; the competition column is not
part of the id. -/
def fbrefMatchId (date team opponent : String) : String :=
  date ++ "_" ++ team ++ "_" ++ opponent

/-- One row of `process_match_dataframe`: rename (already applied in
`FbrefRawRow`), `fillna(0)` on the numeric columns, the separate
possession branch, the `match_id` column, and `source = "fbref"`. -/
def process_match_row (r : FbrefRawRow) : FbrefRecord :=
  { match_id := fbrefMatchId r.date r.team r.opponent
    date := r.date
    team := r.team
    opponent := r.opponent
    competition := r.competition
    venue := r.venue
    result := r.result
    gf := fillna0 r.gf
    ga := fillna0 r.ga
    xg := fillna0 r.xg
    xga := fillna0 r.xga
    sh := fillna0 r.sh
    sot := fillna0 r.sot
    corners := fillna0 r.corners
    possession := r.possession
    source := "fbref" }

/-- `process_match_dataframe` applied to every row of the DataFrame. -/
def process_match_dataframe (rows : List FbrefRawRow) : List FbrefRecord :=
  rows.map process_match_row

/-! ## SofaScore normalizer (`AdvancedSofaScoreScraper.parse_events`) -/

/-- The fields of a raw SofaScore event that `parse_events` reads.  The
source event id (`event.get('id', 'unknown')`) is carried as an optional
string. -/
structure SofaEvent where
  id : Option String
  homeTeamName : Option String
  awayTeamName : Option String
  tournamentName : Option String
  startTimestamp : Option ℤ
  deriving Repr, DecidableEq

/-- The standardized match dictionary built by `parse_events`. -/
structure SofaMatch where
  id : String
  home_team : String
  away_team : String
  league : String
  start_timestamp : Option ℤ
  source : String
  deriving Repr, DecidableEq

/-- The per-event body of `parse_events`: events lacking a home or away
team name are skipped; otherwise the match keeps the source event id
(defaulting to `"unknown"`), the team names, the tournament name
(defaulting to `"Unknown League"`) and the start timestamp. -/
def parseEvent (source : String) (e : SofaEvent) : Option SofaMatch :=
  match e.homeTeamName, e.awayTeamName with
  | some h, some a =>
      some { id := e.id.getD "unknown"
             home_team := h
             away_team := a
             league := e.tournamentName.getD "Unknown League"
             start_timestamp := e.startTimestamp
             source := source }
  | _, _ => none

/-- `parse_events`: parse each event, skipping the unparseable ones. -/
def parse_events (source : String) (events : List SofaEvent) : List SofaMatch :=
  events.filterMap (parseEvent source)

/-! ## SofaScore tier-1 API fetcher (`fetch_events_via_api`) -/

/-- What one API endpoint returns to `fetch_events_via_api`: an HTTP
status (403 or any non-200), a 200 response whose JSON carries an event
list, a 200 response without a recognizable event list, a 200 response
whose JSON fails to parse, or a transport-level exception. -/
inductive ApiResponse where
  | status (code : ℕ)
  | ok (events : List SofaEvent)
  | okNoEvents
  | parseFail
  | netError
  deriving Repr, DecidableEq

/-- Observable actions of `fetch_events_via_api`: one outbound request
per endpoint index, and (hypothetically) an invalidation/re-acquisition
of the browser session context.  The source's 403 branch only logs and
moves on, so its embedding never emits `invalidateSession`. -/
inductive ApiAction where
  | request (endpointIdx : ℕ)
  | invalidateSession
  deriving Repr, DecidableEq

/-- The endpoint loop of `fetch_events_via_api`, with the endpoint index
threaded for the trace.  A 403 logs a warning and continues to the next
endpoint (no session invalidation, no retry of the same endpoint); any
other non-200, a JSON failure, a response without events, an empty event
list and a transport error likewise continue; a non-empty event list is
returned at once. -/
def apiLoop (idx : ℕ) : List ApiResponse → Option (List SofaEvent) × List ApiAction
  | [] => (none, [])
  | r :: rest =>
      let restTrace := fun (p : Option (List SofaEvent) × List ApiAction) =>
        (p.1, ApiAction.request idx :: p.2)
      match r with
      | .ok events =>
          if events.isEmpty then restTrace (apiLoop (idx + 1) rest)
          else (some events, [ApiAction.request idx])
      | .status _ => restTrace (apiLoop (idx + 1) rest)
      | .okNoEvents => restTrace (apiLoop (idx + 1) rest)
      | .parseFail => restTrace (apiLoop (idx + 1) rest)
      | .netError => restTrace (apiLoop (idx + 1) rest)

/-- `fetch_events_via_api`, parameterized by the responses of the
endpoints it tries in order.  Returns the event list found (if any)
together with the trace of actions performed. -/
def fetch_events_via_api (responses : List ApiResponse) :
    Option (List SofaEvent) × List ApiAction :=
  apiLoop 0 responses

/-! ## Fetch strategy chain (`fetch_matches_for_date_range`) -/

/-- The Python exceptions relevant to the chain. -/
inductive PyError where
  | typeError (msg : String)
  | attributeError (msg : String)
  deriving Repr, DecidableEq

/-- The methods defined on the `FBrefScraper` class in
`src/scrapers/fbref_scraper.py` (lines 296-990). -/
def fbrefScraperMethods : List String :=
  ["__init__", "_get_random_headers", "_add_delay", "get_season_info",
   "get_team_url", "scrape_team_matches", "process_match_dataframe",
   "update_team_in_database", "update_league_in_database",
   "scrape_new_league"]

/-- The parameters of `FBrefScraper.__init__` that have no default value
(besides `self`). -/
def fbrefInitRequiredParams : List String :=
  ["db_connection"]

/-- Python call semantics for `FBrefScraper(...)` with keyword-style
arguments: every required parameter must be supplied. -/
def constructFBrefScraper (args : List String) : Except PyError Unit :=
  if fbrefInitRequiredParams.all (fun p => args.contains p) then
    Except.ok ()
  else
    Except.error (PyError.typeError
      "FBrefScraper.__init__ missing 1 required positional argument: db_connection")

/-- Python attribute lookup for a method call on an `FBrefScraper`
instance. -/
def callFBrefMethod (name : String) : Except PyError Unit :=
  if fbrefScraperMethods.contains name then Except.ok ()
  else Except.error (PyError.attributeError
    ("FBrefScraper object has no attribute " ++ name))

/-- The tier responses available for one date of the chain: the result
of `fetch_events_via_api` (tier 1) and of `fetch_events_via_browser`
(tier 2).  `none` models the Python `None` those functions return on
failure; they only ever return non-empty lists, but Python truthiness
(`if not events`) is modelled explicitly anyway. -/
structure ChainInput where
  apiEvents : Option (List SofaEvent)
  browserEvents : Option (List SofaEvent)
  deriving Repr, DecidableEq

/-- Python truthiness of an optional list (`if events:`). -/
def isTruthy (o : Option (List SofaEvent)) : Bool :=
  match o with
  | some l => !l.isEmpty
  | none => false

/-- The per-date body of `fetch_matches_for_date_range`: Method 1 (API)
is consulted first; Method 2 (browser) only when Method 1 yielded no
events; the events found are parsed with the corresponding source tag;
Method 3 is `fbref.fetch_matches_for_date(date_str)`, invoked only when
no matches were parsed — a method that does not exist on
`FBrefScraper`. -/
def processDate (inp : ChainInput) : Except PyError (List SofaMatch) :=
  let apiPart : Option (String × List SofaEvent) :=
    if isTruthy inp.apiEvents then
      (inp.apiEvents.map (fun evs => ("api", evs)))
    else none
  let eventsPart : Option (String × List SofaEvent) :=
    match apiPart with
    | some p => some p
    | none =>
        if isTruthy inp.browserEvents then
          (inp.browserEvents.map (fun evs => ("browser", evs)))
        else none
  let parsed : List SofaMatch :=
    match eventsPart with
    | some (src, evs) => parse_events src evs
    | none => []
  if parsed.isEmpty then
    (callFBrefMethod "fetch_matches_for_date").map (fun _ => [])
  else
    Except.ok parsed

/-- `fetch_matches_for_date_range`, parameterized by the tier responses
for each date in the range.  Before the date loop the source constructs
the tier-3 scraper with `FBrefScraper()` — no arguments — at line 445;
then each date runs the chain, and dates with no matches are skipped
(logged, not fatal). -/
def fetch_matches_for_date_range (dates : List ChainInput) :
    Except PyError (List (List SofaMatch)) := do
  _ ← constructFBrefScraper []
  dates.foldlM
    (fun acc inp => do
      let ms ← processDate inp
      pure (if ms.isEmpty then acc else acc ++ [ms]))
    []

/-! ## Update scheduler (`src/db_update_scheduler.py`) -/

/-- The scheduler configuration fields the core logic reads, with the
defaults of `load_scheduler_config`. -/
structure SchedulerConfig where
  updateInterval : ℚ := 24
  popularTeamsWeight : ℚ := 2
  maxTeamsPerUpdate : ℕ := 0
  retryFailed : Bool := true
  maxRetries : ℕ := 3
  errorThreshold : ℕ := 5
  notifEnabled : Bool := false
  sendOnError : Bool := true
  sendOnSuccess : Bool := false
  deriving Repr, DecidableEq

/-- One row of the team query of `get_teams_to_update`: id, name,
league, and `MAX(scrape_date)` over the team's matches.  Timestamps are
rationals measured in hours. -/
structure TeamRow where
  teamId : ℕ
  teamName : String
  leagueName : String
  lastUpdate : Option ℚ
  deriving Repr, DecidableEq

/-- A candidate dictionary appended to `teams_to_update`. -/
structure Candidate where
  teamId : ℕ
  teamName : String
  leagueName : String
  lastUpdate : Option ℚ
  hoursSinceUpdate : Option ℚ
  isPopular : Bool
  deriving Repr, DecidableEq

/-- Python's `str.lower()`, written on the character list so that it
evaluates by kernel reduction. -/
def strLower (s : String) : String :=
  String.mk (s.data.map Char.toLower)

/-- The popularity test of `get_teams_to_update`: a case-insensitive
name match against the loaded popular-teams list. -/
def isPopularTeam (popularTeams : List String) (name : String) : Bool :=
  popularTeams.any (fun p => strLower p == strLower name)

/-- The sort key of `teams_to_update.sort`: ascending lexicographic on
`(last_update is not None, not is_popular, -1 if hours is None else
-hours)`. -/
def candidateKey (c : Candidate) : ℕ × ℕ × ℚ :=
  ((if c.lastUpdate.isSome then 1 else 0),
   (if c.isPopular then 0 else 1),
   (match c.hoursSinceUpdate with
    | none => -1
    | some h => -h))

/-- Boolean lexicographic comparison of candidate keys, used as the
`le` of a stable merge sort (Python's `list.sort` is stable and
ascending). -/
def candidateLE (c₁ c₂ : Candidate) : Bool :=
  let k₁ := candidateKey c₁
  let k₂ := candidateKey c₂
  if k₁.1 ≠ k₂.1 then decide (k₁.1 < k₂.1)
  else if k₁.2.1 ≠ k₂.2.1 then decide (k₁.2.1 < k₂.2.1)
  else decide (k₁.2.2 ≤ k₂.2.2)

/-- The candidate test and dictionary build for one team row:
`hours_since_update` from `now`, the effective interval (halved by the
popularity weight for popular teams), and the `needs_update`
disjunction `last_update is None or hours_since_update is None or
hours_since_update >= update_interval`. -/
def candidateOfRow (cfg : SchedulerConfig) (now : ℚ)
    (popularTeams : List String) (t : TeamRow) : Option Candidate :=
  let hoursSince : Option ℚ := t.lastUpdate.map (fun lu => qSub now lu)
  let isPop := isPopularTeam popularTeams t.teamName
  let interval : ℚ :=
    if isPop then qDiv cfg.updateInterval cfg.popularTeamsWeight
    else cfg.updateInterval
  let needs : Bool :=
    t.lastUpdate.isNone || hoursSince.isNone ||
      (match hoursSince with
       | some h => decide (h ≥ interval)
       | none => true)
  if needs then
    some { teamId := t.teamId
           teamName := t.teamName
           leagueName := t.leagueName
           lastUpdate := t.lastUpdate
           hoursSinceUpdate := hoursSince
           isPopular := isPop }
  else none

/-- `get_teams_to_update`: filter to the teams needing an update, sort
by the priority key, and cap the list at `max_teams_per_update` when
that setting is positive (`0` means no limit). -/
def get_teams_to_update (cfg : SchedulerConfig) (now : ℚ)
    (popularTeams : List String) (teams : List TeamRow) : List Candidate :=
  let cands := teams.filterMap (candidateOfRow cfg now popularTeams)
  let sorted := stableSort candidateLE cands
  if cfg.maxTeamsPerUpdate > 0 ∧ sorted.length > cfg.maxTeamsPerUpdate then
    sorted.take cfg.maxTeamsPerUpdate
  else sorted

/-! ### Cycle execution and retry bookkeeping -/

/-- An entry of `self.failures`: the dictionary appended when a team
update raises, carrying its accumulated retry count. -/
structure FailureInfo where
  teamId : ℕ
  teamName : String
  leagueName : String
  errMsg : String
  retries : ℕ
  deriving Repr, DecidableEq

/-- An entry of `self.update_log`. -/
structure LogEntry where
  teamName : String
  leagueName : String
  matchCount : ℕ
  status : String
  retries : ℕ
  deriving Repr, DecidableEq

/-- The scheduler's mutable bookkeeping: the failure queue, the update
log, and the number of `send_notification` invocations made so far. -/
structure SchedulerState where
  failures : List FailureInfo
  updateLog : List LogEntry
  notifications : ℕ
  deriving Repr, DecidableEq

/-- The per-failure body of the retry loop of `process_failed_updates`:
increment the retry count; when it is still within `max_retries`, call
`update_team_in_database` with `force_update=True` — a positive match
count logs a success, anything else (zero matches or an exception)
re-queues the failure with the incremented count; when the count
exceeds `max_retries`, log exactly one `failed` entry and drop the
failure. -/
def retryStep (cfg : SchedulerConfig) (retryResult : String → Except String ℕ)
    (acc : List FailureInfo × List LogEntry) (f : FailureInfo) :
    List FailureInfo × List LogEntry :=
  let retries := f.retries + 1
  if retries ≤ cfg.maxRetries then
    match retryResult f.teamName with
    | Except.ok n =>
        if 0 < n then
          (acc.1,
           acc.2 ++ [{ teamName := f.teamName, leagueName := f.leagueName,
                       matchCount := n, status := "success", retries := retries }])
        else
          (acc.1 ++ [{ f with retries := retries }], acc.2)
    | Except.error e =>
        (acc.1 ++ [{ f with retries := retries, errMsg := e }], acc.2)
  else
    (acc.1,
     acc.2 ++ [{ teamName := f.teamName, leagueName := f.leagueName,
                 matchCount := 0, status := "failed", retries := retries }])

/-- `process_failed_updates`: when retries are enabled and the failure
queue is non-empty, copy and clear the queue, run the retry loop over
the copy, and afterwards invoke `send_notification` once when the
number of entries remaining in the (rebuilt) failure queue is at least
`error_threshold`.  The notification counter counts invocations of
`send_notification` (the method itself no-ops when notifications are
disabled). -/
def process_failed_updates (cfg : SchedulerConfig)
    (retryResult : String → Except String ℕ) (st : SchedulerState) :
    SchedulerState :=
  if cfg.retryFailed = false ∨ st.failures.isEmpty then st
  else
    let p := st.failures.foldl (retryStep cfg retryResult) ([], st.updateLog)
    { failures := p.1
      updateLog := p.2
      notifications :=
        st.notifications + (if cfg.errorThreshold ≤ p.1.length then 1 else 0) }

/-- The names bound at module level in `db_update_scheduler.py`: its
imports (`os, sys, time, logging, argparse, schedule, json, smtplib,
traceback`, `MIMEText`, `datetime`, `timedelta`, `configparser`, and
the three names imported from `improved_fbref_scraper`) and its
module-level definitions.  The name `random` is used at line 438 but
appears in no import statement of the module. -/
def schedulerModuleNames : List String :=
  ["os", "sys", "time", "logging", "argparse", "schedule", "json",
   "smtplib", "traceback", "MIMEText", "datetime", "timedelta",
   "configparser", "DatabaseConnection", "FBrefScraper", "load_config",
   "logger", "UpdateScheduler", "main"]

/-- Python name resolution at module scope: referencing an unbound name
raises `NameError`. -/
def evalModuleName (n : String) : Except String Unit :=
  if schedulerModuleNames.contains n then Except.ok ()
  else Except.error ("NameError: name " ++ n ++ " is not defined")

/-- One team of a cycle: its identity together with what
`update_team_in_database(team, league, matches_per_team, False)` does
for it (a match count, or a raised exception message). -/
structure TeamTask where
  teamId : ℕ
  teamName : String
  leagueName : String
  outcome : Except String ℕ
  deriving Repr

/-- The success/failure/match counters of `run_update_cycle`. -/
structure CycleCounts where
  successCount : ℕ
  failureCount : ℕ
  matchCount : ℕ
  deriving Repr, DecidableEq

/-- The per-team `try/except` body of the primary loop of
`run_update_cycle`: a positive match count logs a success, a zero count
logs an `empty` entry, and an exception is caught, appended to the
failure queue with `retries := 0`, and logged as `failed`. -/
def primaryStep (st : SchedulerState × CycleCounts) (t : TeamTask) :
    SchedulerState × CycleCounts :=
  match t.outcome with
  | Except.ok n =>
      if 0 < n then
        ({ st.1 with
             updateLog := st.1.updateLog ++
               [{ teamName := t.teamName, leagueName := t.leagueName,
                  matchCount := n, status := "success", retries := 0 }] },
         { st.2 with
             successCount := st.2.successCount + 1,
             matchCount := st.2.matchCount + n })
      else
        ({ st.1 with
             updateLog := st.1.updateLog ++
               [{ teamName := t.teamName, leagueName := t.leagueName,
                  matchCount := 0, status := "empty", retries := 0 }] },
         st.2)
  | Except.error e =>
      ({ st.1 with
           failures := st.1.failures ++
             [{ teamId := t.teamId, teamName := t.teamName,
                leagueName := t.leagueName, errMsg := e, retries := 0 }],
           updateLog := st.1.updateLog ++
             [{ teamName := t.teamName, leagueName := t.leagueName,
                matchCount := 0, status := "failed", retries := 0 }] },
       { st.2 with failureCount := st.2.failureCount + 1 })

/-- The primary loop of `run_update_cycle`.  After each team except the
last, the source executes `time.sleep(random.uniform(delay_min,
delay_max))` (line 438) outside the per-team `try/except`; evaluating
it first resolves the module-level name `random`, so the embedded loop
evaluates that name at each inter-team delay and propagates the
resulting error. -/
def primaryLoop (st : SchedulerState × CycleCounts) :
    List TeamTask → Except String (SchedulerState × CycleCounts)
  | [] => Except.ok st
  | t :: rest =>
      let st1 := primaryStep st t
      if rest.isEmpty then Except.ok st1
      else do
        _ ← evalModuleName "random"
        primaryLoop st1 rest

/-- `run_update_cycle`: an empty candidate list returns early;
otherwise the primary loop runs, then (when the failure queue is
non-empty and retries are enabled) one pass of
`process_failed_updates`, then the end-of-cycle notification block —
when notifications are enabled, one `send_notification` call if the
primary failure count is positive and `send_on_error` is set, else one
call if `send_on_success` is set. -/
def run_update_cycle (cfg : SchedulerConfig)
    (retryResult : String → Except String ℕ) (st : SchedulerState)
    (tasks : List TeamTask) : Except String (SchedulerState × CycleCounts) :=
  if tasks.isEmpty then Except.ok (st, ⟨0, 0, 0⟩)
  else do
    let p ← primaryLoop (st, ⟨0, 0, 0⟩) tasks
    let st1 := p.1
    let counts := p.2
    let st2 :=
      if ¬st1.failures.isEmpty ∧ cfg.retryFailed then
        process_failed_updates cfg retryResult st1
      else st1
    let st3 :=
      if cfg.notifEnabled then
        if 0 < counts.failureCount ∧ cfg.sendOnError then
          { st2 with notifications := st2.notifications + 1 }
        else if cfg.sendOnSuccess then
          { st2 with notifications := st2.notifications + 1 }
        else st2
      else st2
    Except.ok (st3, counts)

/-! ## `FBrefScraper.update_team_in_database` -/

/-- The database-facing environment of one `update_team_in_database`
call: the stored `MAX(scrape_date)` for the team and the current time
(both in hours), and the rows the scrape would return. -/
structure UpdateEnv where
  lastScrape : Option ℚ
  now : ℚ
  scrapedRows : List FbrefRawRow
  deriving Repr, DecidableEq

/-- The observable database/network actions of
`update_team_in_database`. -/
inductive DbAction where
  | scrape
  | insert (count : ℕ)
  deriving Repr, DecidableEq

/-- `update_team_in_database` after team/league resolution: unless
`force_update` is set, a stored scrape younger than the hard-coded 24
hours returns `0` immediately — no scrape, no insert.  Otherwise the
team's matches are scraped and, when any rows come back, inserted.  The
freshness bound is the literal `24` at line 738 of the source; it is
not read from any configuration. -/
def update_team_in_database (forceUpdate : Bool) (numMatches : ℕ)
    (env : UpdateEnv) : ℕ × List DbAction :=
  let skip : Bool :=
    if forceUpdate then false
    else
      match env.lastScrape with
      | some lu => decide (qSub env.now lu < 24)
      | none => false
  if skip then (0, [])
  else
    let rows := env.scrapedRows.take numMatches
    if rows.isEmpty then (0, [DbAction.scrape])
    else (rows.length, [DbAction.scrape, DbAction.insert rows.length])


/-! ## Claim theorems -/

/-- Sample FBref rows describing the same fixture (same date, same two
participants, same competition) but with different statistic values. -/
def sampleRowA : FbrefRawRow :=
  { date := "20250101", team := "Arsenal", opponent := "Chelsea",
    competition := "Premier League", venue := "Home", result := "W",
    gf := some 2, ga := some 1, xg := some 1, xga := none, sh := some 14,
    sot := some 6, corners := some 7, possession := some 55 }

def sampleRowB : FbrefRawRow :=
  { date := "20250101", team := "Arsenal", opponent := "Chelsea",
    competition := "Premier League", venue := "Home", result := "W",
    gf := some 2, ga := some 1, xg := none, xga := none, sh := none,
    sot := none, corners := none, possession := none }

/-- C1 (counterexample).  The claim says records with identical (date,
home, away, competition) always receive the identical `match_id`,
across sources.  In `parse_events` the match id is the source-assigned
event id: two SofaScore events describing the same fixture (identical
teams, tournament and kickoff timestamp) but carrying distinct event
ids produce records with distinct ids, and neither id equals the id the
FBref normalizer computes for that same fixture. -/
theorem C1_counterexample :
    (parse_events "api"
        [{ id := some "11111", homeTeamName := some "Arsenal",
           awayTeamName := some "Chelsea",
           tournamentName := some "Premier League",
           startTimestamp := some 1735732800 },
         { id := some "22222", homeTeamName := some "Arsenal",
           awayTeamName := some "Chelsea",
           tournamentName := some "Premier League",
           startTimestamp := some 1735732800 }]).map SofaMatch.id
      = ["11111", "22222"] ∧
    ("11111" : String) ≠ "22222" ∧
    (process_match_row sampleRowA).match_id = "20250101_Arsenal_Chelsea" ∧
    ("11111" : String) ≠ "20250101_Arsenal_Chelsea" := by
  decide

/-- C1 (amended).  Within the FBref normalizer the claim holds:
`match_id` is a deterministic function of the row's date, team and
opponent (the competition field is not consulted), so two rows agreeing
on date, both participants and competition always receive the identical
id, whatever their statistics. -/
theorem C1_amended (r₁ r₂ : FbrefRawRow) (hd : r₁.date = r₂.date)
    (ht : r₁.team = r₂.team) (ho : r₁.opponent = r₂.opponent)
    (_hc : r₁.competition = r₂.competition) :
    (process_match_row r₁).match_id = (process_match_row r₂).match_id := by
  simp [process_match_row, fbrefMatchId, hd, ht, ho]

/-- C1 (witness): the amended determinism theorem applied to two
concrete rows of the same fixture with different statistics. -/
theorem C1_witness :
    sampleRowA.date = sampleRowB.date ∧
    sampleRowA.team = sampleRowB.team ∧
    sampleRowA.opponent = sampleRowB.opponent ∧
    sampleRowA.competition = sampleRowB.competition ∧
    (process_match_row sampleRowA).match_id =
      (process_match_row sampleRowB).match_id :=
  ⟨rfl, rfl, rfl, rfl, C1_amended sampleRowA sampleRowB rfl rfl rfl rfl⟩

/-- C2 (code evaluated at the failing input).  The claim describes the
intended three-tier chain with Empty as a normal outcome.  The code
cannot run it: `fetch_matches_for_date_range` constructs the tier-3
scraper as `FBrefScraper()` (line 445) although `db_connection` has no
default, raising `TypeError` before any date is processed; and the
tier-3 call target `fetch_matches_for_date` is not a method of
`FBrefScraper` at all, so an all-tiers-empty date would raise
`AttributeError` instead of returning Empty. -/
theorem C2_theorem :
    fetch_matches_for_date_range [{ apiEvents := none, browserEvents := none }] =
      Except.error (PyError.typeError
        "FBrefScraper.__init__ missing 1 required positional argument: db_connection") ∧
    fbrefScraperMethods.contains "fetch_matches_for_date" = false ∧
    processDate { apiEvents := none, browserEvents := none } =
      Except.error (PyError.attributeError
        "FBrefScraper object has no attribute fetch_matches_for_date") := by
  decide

/-- C3 (code evaluated at the failing input).  The claim requires a
statistic the source did not provide to stay unknown/null.  The
normalizer instead passes the numeric columns through
`to_numeric(errors="coerce").fillna(0)`: a row with missing expected
goals, shots and corners yields a record carrying the hard numeric `0`
for each of them, indistinguishable from an observed zero. -/
theorem C3_theorem :
    (process_match_row sampleRowB).xg = 0 ∧
    (process_match_row sampleRowB).sh = 0 ∧
    (process_match_row sampleRowB).corners = 0 ∧
    sampleRowB.xg = none ∧ sampleRowB.sh = none ∧
    sampleRowB.corners = none := by
  decide

/-- C4 (counterexample).  The claim says a tier-1 fetch that receives a
403 invalidates the session context and retries that tier exactly once
before falling through.  In `fetch_events_via_api` a 403 only logs and
moves to the next endpoint: with every endpoint answering 403 the trace
holds one request per endpoint, no repeated request, and zero session
invalidations — not the claimed exactly one. -/
theorem C4_counterexample :
    fetch_events_via_api
        [ApiResponse.status 403, ApiResponse.status 403,
         ApiResponse.status 403, ApiResponse.status 403] =
      (none,
       [ApiAction.request 0, ApiAction.request 1,
        ApiAction.request 2, ApiAction.request 3]) ∧
    (fetch_events_via_api
        [ApiResponse.status 403, ApiResponse.status 403,
         ApiResponse.status 403, ApiResponse.status 403]).2.count
      ApiAction.invalidateSession = 0 := by
  decide

theorem apiLoop_all_blocked (idx : ℕ) (rs : List ApiResponse)
    (h : ∀ r ∈ rs, r = ApiResponse.status 403) :
    apiLoop idx rs = (none, (List.range' idx rs.length).map ApiAction.request) := by
  induction rs generalizing idx with
  | nil => rfl
  | cons r rest ih =>
      have hr : r = ApiResponse.status 403 := h r (by simp)
      have hrest : ∀ x ∈ rest, x = ApiResponse.status 403 :=
        fun x hx => h x (by simp [hx])
      subst hr
      simp [apiLoop, ih idx.succ hrest, List.range']

/-- C4 (amended).  On an anti-bot 403 the tier-1 fetcher performs no
session invalidation and no retry of the endpoint: when every endpoint
answers 403 it issues exactly one request per endpoint in order,
returns `None` (falling through to the next tier), and its action trace
contains no session invalidation. -/
theorem C4_amended (rs : List ApiResponse)
    (h : ∀ r ∈ rs, r = ApiResponse.status 403) :
    (fetch_events_via_api rs).1 = none ∧
    (fetch_events_via_api rs).2 =
      (List.range' 0 rs.length).map ApiAction.request ∧
    ApiAction.invalidateSession ∉ (fetch_events_via_api rs).2 := by
  have hgo := apiLoop_all_blocked 0 rs h
  refine ⟨by simp [fetch_events_via_api, hgo], by simp [fetch_events_via_api, hgo], ?_⟩
  simp only [fetch_events_via_api, hgo]
  intro hmem
  rcases List.mem_map.mp hmem with ⟨i, _, hi⟩
  exact ApiAction.noConfusion hi

/-- C4 (witness): the amended theorem applied to a run in which all
four documented endpoints answer 403. -/
theorem C4_witness :
    (fetch_events_via_api
        [ApiResponse.status 403, ApiResponse.status 403,
         ApiResponse.status 403, ApiResponse.status 403]).1 = none ∧
    (fetch_events_via_api
        [ApiResponse.status 403, ApiResponse.status 403,
         ApiResponse.status 403, ApiResponse.status 403]).2 =
      (List.range' 0 4).map ApiAction.request ∧
    ApiAction.invalidateSession ∉
      (fetch_events_via_api
        [ApiResponse.status 403, ApiResponse.status 403,
         ApiResponse.status 403, ApiResponse.status 403]).2 :=
  C4_amended _ (by decide)

/-- C5 (code evaluated at the failing input).  The claim says a cycle
with two or more candidates processes all of them with a randomized
politeness delay in between, completing without an error outside the
per-team handler.  The inter-team delay `time.sleep(random.uniform(...))`
at line 438 references the module-level name `random`, which
`db_update_scheduler.py` never imports, and it sits outside the
per-team `try/except`: a single-team cycle completes normally, while a
two-team cycle raises `NameError` after the first team and aborts the
loop. -/
theorem C5_theorem :
    run_update_cycle {} (fun _ => Except.ok 0) ⟨[], [], 0⟩
        [{ teamId := 1, teamName := "TeamA", leagueName := "Premier League",
           outcome := Except.ok 3 }] =
      Except.ok
        (⟨[], [{ teamName := "TeamA", leagueName := "Premier League",
                 matchCount := 3, status := "success", retries := 0 }], 0⟩,
         ⟨1, 0, 3⟩) ∧
    run_update_cycle {} (fun _ => Except.ok 0) ⟨[], [], 0⟩
        [{ teamId := 1, teamName := "TeamA", leagueName := "Premier League",
           outcome := Except.ok 3 },
         { teamId := 2, teamName := "TeamB", leagueName := "Premier League",
           outcome := Except.ok 2 }] =
      Except.error "NameError: name random is not defined" ∧
    schedulerModuleNames.contains "random" = false := by
  decide

/-- C6 (counterexample).  The claim says an entity failing every
attempt has its retry_count incremented up to exactly `max_retries`
within that cycle and then appears once in that cycle's Failed report.
A cycle runs `process_failed_updates` once: a team that raises in the
primary pass and fails its single retry ends the cycle still queued
with `retries = 1` — not `max_retries = 3` — and no exhaustion entry is
logged that cycle (the only `failed` log entry is the primary-pass
one, written before any retry). -/
theorem C6_counterexample :
    run_update_cycle {} (fun _ => Except.ok 0) ⟨[], [], 0⟩
        [{ teamId := 1, teamName := "TeamX", leagueName := "Premier League",
           outcome := Except.error "timeout" }] =
      Except.ok
        (⟨[{ teamId := 1, teamName := "TeamX", leagueName := "Premier League",
             errMsg := "timeout", retries := 1 }],
          [{ teamName := "TeamX", leagueName := "Premier League",
             matchCount := 0, status := "failed", retries := 0 }], 0⟩,
         ⟨0, 1, 0⟩) ∧
    (1 : ℕ) ≠ ({} : SchedulerConfig).maxRetries := by
  decide

/-- C6 (amended).  One cycle runs a single retry pass, so a
still-failing entity's retry_count is incremented by exactly 1 per
cycle, not up to `max_retries`; only in a later cycle, once its
retry_count has already reached `max_retries`, is it dropped from the
queue and logged exactly once as Failed. -/
theorem C6_amended (cfg : SchedulerConfig) (oc : String → Except String ℕ)
    (f : FailureInfo) (log₀ : List LogEntry) (n₀ : ℕ)
    (hret : cfg.retryFailed = true) (hoc : oc f.teamName = Except.ok 0) :
    (f.retries < cfg.maxRetries →
      (process_failed_updates cfg oc ⟨[f], log₀, n₀⟩).failures =
          [{ f with retries := f.retries + 1 }] ∧
      (process_failed_updates cfg oc ⟨[f], log₀, n₀⟩).updateLog = log₀) ∧
    (cfg.maxRetries ≤ f.retries →
      (process_failed_updates cfg oc ⟨[f], log₀, n₀⟩).failures = [] ∧
      (process_failed_updates cfg oc ⟨[f], log₀, n₀⟩).updateLog =
          log₀ ++ [{ teamName := f.teamName, leagueName := f.leagueName,
                     matchCount := 0, status := "failed",
                     retries := f.retries + 1 }]) := by
  constructor
  · intro h
    have h1 : f.retries + 1 ≤ cfg.maxRetries := h
    simp [process_failed_updates, retryStep, hret, hoc, h1]
  · intro h
    have h1 : ¬ (f.retries + 1 ≤ cfg.maxRetries) := by omega
    simp [process_failed_updates, retryStep, hret, hoc, h1]

/-- C6 (witness): the amended theorem applied to a fresh failure under
the default configuration — after the pass its retry count is exactly 1. -/
theorem C6_witness :
    (0 : ℕ) < ({} : SchedulerConfig).maxRetries ∧
    (process_failed_updates {} (fun _ => Except.ok 0)
        ⟨[{ teamId := 1, teamName := "TeamX", leagueName := "Premier League",
            errMsg := "timeout", retries := 0 }], [], 0⟩).failures =
      [{ teamId := 1, teamName := "TeamX", leagueName := "Premier League",
         errMsg := "timeout", retries := 1 }] :=
  ⟨by decide,
   ((C6_amended {} (fun _ => Except.ok 0)
      { teamId := 1, teamName := "TeamX", leagueName := "Premier League",
        errMsg := "timeout", retries := 0 } [] 0 rfl rfl).1 (by decide)).1⟩

/-- The concrete candidate-selection scenario of the claim: TeamA never
refreshed, TeamB refreshed 2 hours ago, TeamC popular (weight 2)
refreshed 10 hours ago; base interval 24 hours; `now = 100`. -/
def teamRowsC7 : List TeamRow :=
  [{ teamId := 1, teamName := "TeamA", leagueName := "Premier League",
     lastUpdate := none },
   { teamId := 2, teamName := "TeamB", leagueName := "Premier League",
     lastUpdate := some 98 },
   { teamId := 3, teamName := "TeamC", leagueName := "Premier League",
     lastUpdate := some 90 }]

/-- C7 (counterexample).  The claim says the candidate set is
{TeamA, TeamC}.  TeamC's effective interval is 24/2 = 12 hours and only
10 hours have elapsed, so `hours_since_update >= update_interval` is
false and `get_teams_to_update` excludes TeamC. -/
theorem C7_counterexample :
    "TeamC" ∉
      (get_teams_to_update {} 100 ["TeamC"] teamRowsC7).map
        Candidate.teamName := by
  decide

/-- C7 (amended).  On that scenario candidate selection returns exactly
[TeamA]: TeamB (2h < 24h) and TeamC (10h < effective 12h) are both
excluded, and TeamA — never refreshed — is first as the sole
candidate. -/
theorem C7_amended :
    (get_teams_to_update {} 100 ["TeamC"] teamRowsC7).map
        Candidate.teamName = ["TeamA"] := by
  decide

/-- C8 (counterexample).  The claim bounds the candidate list by
`max_teams_per_update` for every configuration.  The default
configuration sets `max_teams_per_update = 0`, which the code treats as
"no limit" (`if max_teams > 0 and ...`): with one stale team the list
has length 1 > 0. -/
theorem C8_counterexample :
    (get_teams_to_update {} 100 []
        [{ teamId := 1, teamName := "TeamA", leagueName := "Premier League",
           lastUpdate := none }]).length = 1 ∧
    ({} : SchedulerConfig).maxTeamsPerUpdate = 0 ∧
    ¬ (get_teams_to_update {} 100 []
        [{ teamId := 1, teamName := "TeamA", leagueName := "Premier League",
           lastUpdate := none }]).length ≤
        ({} : SchedulerConfig).maxTeamsPerUpdate := by
  decide

/-- C8 (amended).  When `max_teams_per_update` is positive the
scheduler never returns more than that many candidates; the value 0
(the default) means no limit. -/
theorem C8_amended (cfg : SchedulerConfig) (now : ℚ) (pop : List String)
    (teams : List TeamRow) (h : 0 < cfg.maxTeamsPerUpdate) :
    (get_teams_to_update cfg now pop teams).length ≤ cfg.maxTeamsPerUpdate := by
  simp only [get_teams_to_update]
  split
  · rw [List.length_take]
    exact Nat.min_le_left _ _
  · next hcond =>
      rcases not_and_or.mp hcond with h1 | h2
      · exact absurd h h1
      · exact Nat.le_of_not_lt h2

/-- C8 (witness): the amended bound applied to a capped configuration
with two stale teams. -/
theorem C8_witness :
    (0 : ℕ) < 1 ∧
    (get_teams_to_update { maxTeamsPerUpdate := 1 } 100 []
        [{ teamId := 1, teamName := "TeamA", leagueName := "Premier League",
           lastUpdate := none },
         { teamId := 2, teamName := "TeamD", leagueName := "Premier League",
           lastUpdate := none }]).length ≤ 1 :=
  ⟨by decide,
   C8_amended { maxTeamsPerUpdate := 1 } 100 []
     [{ teamId := 1, teamName := "TeamA", leagueName := "Premier League",
        lastUpdate := none },
      { teamId := 2, teamName := "TeamD", leagueName := "Premier League",
        lastUpdate := none }] (by decide)⟩

/-- Configuration for the C9 scenario: threshold 1, notifications
enabled, all other settings default (retries on, `max_retries = 3`,
`send_on_error` on, `send_on_success` off). -/
def cfgC9 : SchedulerConfig := { errorThreshold := 1, notifEnabled := true }

/-- The update log the C9 cycle produces: one primary-pass success and
one entity marked Failed by retry exhaustion. -/
def logC9 : List LogEntry :=
  [{ teamName := "TeamA", leagueName := "Premier League",
     matchCount := 5, status := "success", retries := 0 },
   { teamName := "Oldham", leagueName := "League One",
     matchCount := 0, status := "failed", retries := 4 }]

/-- C9 (counterexample).  The claim says a cycle whose Failed-entity
count reaches `errorThreshold` makes exactly one notification call.
The code compares the threshold against the entities still queued for
retry, not those marked Failed: a cycle that exhausts one carried-over
entity (retries already at `max_retries`) logs it as Failed — meeting
threshold 1 — yet ends with an empty retry queue and zero notification
calls. -/
theorem C9_counterexample :
    run_update_cycle cfgC9 (fun _ => Except.ok 0)
        ⟨[{ teamId := 2, teamName := "Oldham", leagueName := "League One",
            errMsg := "timeout", retries := 3 }], [], 0⟩
        [{ teamId := 1, teamName := "TeamA", leagueName := "Premier League",
           outcome := Except.ok 5 }] =
      Except.ok (⟨[], logC9, 0⟩, ⟨1, 0, 5⟩) ∧
    (logC9.filter (fun e => e.status == "failed")).length = 1 ∧
    cfgC9.errorThreshold ≤ 1 := by
  decide

/-- C9 (amended).  The notification actually implemented: after its
retry pass, `process_failed_updates` makes exactly one
`send_notification` call when the number of entities still queued for
retry is at least `error_threshold`, and none otherwise; entities
marked Failed by exhaustion have left the queue and do not count. -/
theorem C9_amended (cfg : SchedulerConfig) (oc : String → Except String ℕ)
    (st : SchedulerState) (hret : cfg.retryFailed = true)
    (hne : st.failures.isEmpty = false) :
    (process_failed_updates cfg oc st).notifications =
      st.notifications +
        (if cfg.errorThreshold ≤ (process_failed_updates cfg oc st).failures.length
         then 1 else 0) := by
  simp [process_failed_updates, hret, hne]

/-- C9 (witness): the amended rule applied to a single still-failing
entity under `cfgC9` (threshold 1): the pass makes exactly one call. -/
theorem C9_witness :
    cfgC9.retryFailed = true ∧
    ((⟨[{ teamId := 1, teamName := "TeamX", leagueName := "Premier League",
          errMsg := "timeout", retries := 0 }], [], 0⟩ :
        SchedulerState)).failures.isEmpty = false ∧
    (process_failed_updates cfgC9 (fun _ => Except.ok 0)
        ⟨[{ teamId := 1, teamName := "TeamX", leagueName := "Premier League",
            errMsg := "timeout", retries := 0 }], [], 0⟩).notifications =
      0 + (if cfgC9.errorThreshold ≤
            (process_failed_updates cfgC9 (fun _ => Except.ok 0)
              ⟨[{ teamId := 1, teamName := "TeamX",
                  leagueName := "Premier League",
                  errMsg := "timeout", retries := 0 }], [], 0⟩).failures.length
           then 1 else 0) :=
  ⟨rfl, rfl,
   C9_amended cfgC9 (fun _ => Except.ok 0)
     ⟨[{ teamId := 1, teamName := "TeamX", leagueName := "Premier League",
         errMsg := "timeout", retries := 0 }], [], 0⟩ rfl rfl⟩

/-- C10 (confirmed).  Without `force_update`, a team whose most recent
`scrape_date` is less than 24 hours old returns 0 with no scrape and no
database write.  The bound is the hard-coded literal `24` of
`update_team_in_database` (line 738): the function receives no
scheduler configuration, so the window is independent of the configured
update interval and of the popularity multiplier, which affect only
candidate selection in the scheduler. -/
theorem C10_theorem (numMatches : ℕ) (env : UpdateEnv) (lu : ℚ)
    (hl : env.lastScrape = some lu) (hfresh : qSub env.now lu < 24) :
    update_team_in_database false numMatches env = (0, []) := by
  have hskip : (match env.lastScrape with
      | some lu => decide (qSub env.now lu < 24)
      | none => false) = true := by
    rw [hl]
    exact decide_eq_true hfresh
  simp [update_team_in_database, hskip]

/-- C10 (witness): a team last scraped 5 hours ago is skipped without
any action. -/
theorem C10_witness :
    (({ lastScrape := some 95, now := 100, scrapedRows := [] } :
        UpdateEnv)).lastScrape = some 95 ∧
    qSub (100 : ℚ) 95 < 24 ∧
    update_team_in_database false 7
        { lastScrape := some 95, now := 100, scrapedRows := [] } = (0, []) :=
  ⟨rfl, by decide,
   C10_theorem 7 { lastScrape := some 95, now := 100, scrapedRows := [] }
     95 rfl (by decide)⟩

end FootballIntel
